import Mathlib

/-!
Verification development for the concurrent load-test harness
(`src/benchmark/load_scenarios.py` of the amazon-reviews project).

The Python code is shallowly embedded: numeric values (Python floats) are
modelled as exact rationals, Python lists as Lean lists, raised exceptions
as the `Except.error` constructor, and Python `None` as `Option.none`.
-/

namespace LoadScenarios

/-- Python `int(x)` on a numeric value: truncation toward zero. -/
def pyInt (q : ℚ) : ℤ := if 0 ≤ q then ⌊q⌋ else ⌈q⌉

/-- Python list indexing `s[i]`: a negative index counts from the end of the
list; an index out of range (after that adjustment) raises `IndexError`. -/
def pyIndex (s : List ℚ) (i : ℤ) : Except String ℚ :=
  let j : ℤ := if i < 0 then i + (s.length : ℤ) else i
  if 0 ≤ j ∧ j < (s.length : ℤ) then .ok (s.getD j.toNat 0)
  else .error "IndexError: list index out of range"

/-- The rank `k = (len(s) - 1) * (p / 100.0)` computed by `percentile`. -/
def percentileRank (n : ℕ) (p : ℚ) : ℚ := ((n : ℚ) - 1) * (p / 100)

/-- Function `percentile(values, p)` from `src/benchmark/load_scenarios.py` lines 66-75:

```
if not values: return None
s = sorted(values)
k = (len(s) - 1) * (p / 100.0)
f = math.floor(k); c = math.ceil(k)
if f == c: return s[int(k)]
return s[f] + (s[c] - s[f]) * (k - f)
```

`.ok none` is Python's returned `None`, `.ok (some v)` a returned value, and
`.error` a raised exception. -/
def percentile (values : List ℚ) (p : ℚ) : Except String (Option ℚ) :=
  if values = [] then .ok none
  else
    let s := values.insertionSort (· ≤ ·)
    let k : ℚ := percentileRank s.length p
    let f : ℤ := ⌊k⌋
    let c : ℤ := ⌈k⌉
    if f = c then (pyIndex s (pyInt k)).map some
    else do
      let sf ← pyIndex s f
      let sc ← pyIndex s c
      pure (some (sf + (sc - sf) * (k - (f : ℚ))))

/-- The Percentile Engine as the specification words it (§4.1): sort the
samples ascending; compute rank `k = (n-1) * p/100`; let `f = floor(k)`,
`c = ceil(k)`; if `f == c` return `sample[f]`; otherwise return
`sample[f] + (sample[c]-sample[f]) * (k-f)`; on empty input return the
"no data" sentinel (`none`). Stated for comparison with `percentile`. -/
def percentileSpec (values : List ℚ) (p : ℚ) : Option ℚ :=
  if values = [] then none
  else
    let s := values.insertionSort (· ≤ ·)
    let k : ℚ := percentileRank s.length p
    let f : ℤ := ⌊k⌋
    let c : ℤ := ⌈k⌉
    if f = c then some (s.getD f.toNat 0)
    else some (s.getD f.toNat 0 + (s.getD c.toNat 0 - s.getD f.toNat 0) * (k - (f : ℚ)))

/-- One row of `per_req_rows`:
`[scenario, query_name, epoch, latency_s, took_ms, total_hits, status]`
(line 96-98 of `load_scenarios.py`).  `took_ms`/`total_hits` are `none` when
the Python code leaves them as the empty string `""`. -/
structure ResultRow where
  scen : String
  query : String
  epoch : ℚ
  latency_s : ℚ
  took_ms : Option ℚ
  total_hits : Option ℚ
  status : String
deriving DecidableEq

/-- What one `es.search` call does, as observed by `run_client`: either a
normal response (with the optional `took` and `hits.total.value` fields the
code extracts), or a raised exception with its type name and message. -/
inductive ReqOutcome where
  | success (took : Option ℚ) (total_hits : Option ℚ)
  | failure (ename : String) (emsg : String)
deriving DecidableEq

/-- One attempt the service environment has in store for a worker: the query
name `random.choice` picks, the call's outcome, and the wall-clock time `dt`
the call takes (from `t0` to either the response or the raised exception). -/
structure Attempt where
  qname : String
  outcome : ReqOutcome
  dt : ℚ
deriving DecidableEq

/-- The row `run_client` appends for one attempt begun at instant `now`
(lines 83-98): on success `status = "Success"` with the extracted fields; on
an exception `status` is the `type(e).__name__ + ": " + str(e)` string, the
`took`/`total_hits` cells keep their pre-`try` empty value, and the latency
is still `perf_counter() - t0`, i.e. measured up to the failure point. -/
def attemptRow (scen : String) (now : ℚ) (a : Attempt) : ResultRow :=
  match a.outcome with
  | .success took hits =>
      { scen := scen, query := a.qname, epoch := now + a.dt, latency_s := a.dt,
        took_ms := took, total_hits := hits, status := "Success" }
  | .failure en em =>
      { scen := scen, query := a.qname, epoch := now + a.dt, latency_s := a.dt,
        took_ms := none, total_hits := none, status := en ++ ": " ++ em }

/-- Function `run_client` (lines 79-98).  `start_time` is the `perf_counter()` value
this worker reads when it begins; the loop runs
`while (perf_counter() - start_time) < duration_s`.  The wall clock is modelled
explicitly: `now` is the current instant and each attempt advances it by its
`dt`.  The (finite) list of pending attempts stands for the service
environment's behaviour; the returned list is what the worker appends to
`per_req_rows`. -/
def run_client (scen : String) (start_time duration_s : ℚ) :
    ℚ → List Attempt → List ResultRow
  | _, [] => []
  | now, a :: rest =>
    if now - start_time < duration_s then
      attemptRow scen now a :: run_client scen start_time duration_s (now + a.dt) rest
    else []

/-- Modelled from the spec (§4.2 and §4.3 step 3): every Client Worker of a
scenario checks `now` against one shared absolute deadline, computed once as
`launch_instant + fixed_duration` when the workers are launched.  Stated for
comparison with `run_client`, which the source gives its own per-worker
start time instead. -/
def runClientSharedDeadline (scen : String) (deadline : ℚ) :
    ℚ → List Attempt → List ResultRow
  | _, [] => []
  | now, a :: rest =>
    if now < deadline then
      attemptRow scen now a :: runClientSharedDeadline scen deadline (now + a.dt) rest
    else []

/-- The summary dictionary built at lines 152-167. `none` in a statistic
field is the explicit empty string `""` the code writes for a missing
statistic. -/
structure ScenarioSummary where
  scen : String
  clients : ℕ
  duration_s : ℚ
  requests : ℕ
  success : ℕ
  errors : ℕ
  rps : ℚ
  lat_avg_ms : Option ℚ
  lat_p50_ms : Option ℚ
  lat_p90_ms : Option ℚ
  lat_p95_ms : Option ℚ
  lat_p99_ms : Option ℚ
  took_avg_ms : Option ℚ
  took_p95_ms : Option ℚ
deriving DecidableEq

/-- Python `round(q, nd)`: round half to even, at `nd` decimal digits. -/
def pyRound (q : ℚ) (nd : ℕ) : ℚ :=
  let scaled : ℚ := q * ((10 : ℚ) ^ nd)
  let fl : ℤ := ⌊scaled⌋
  let r : ℤ :=
    if scaled - fl < 1/2 then fl
    else if 1/2 < scaled - fl then fl + 1
    else if 2 ∣ fl then fl else fl + 1
  (r : ℚ) / ((10 : ℚ) ^ nd)

/-- Python `statistics.mean`; `run_scenario` only applies it to non-empty lists
(guarded by `if latencies` / `if tooks_ms`). -/
def mean (xs : List ℚ) : ℚ := xs.sum / xs.length

/-- The value `percentile` returns where the caller knows it neither raises
nor returns `None` — as in `run_scenario`, which applies it only to non-empty
sample lists at p = 50/90/95/99.  `percentileVal_eq` below proves the
fallback branch unreachable in those conditions. -/
def percentileVal (xs : List ℚ) (p : ℚ) : ℚ :=
  match percentile xs p with
  | .ok (some v) => v
  | _ => 0

/-- Line 144: `latencies = [r[3] for r in per_req_rows if r[6] == "Success"]`. -/
def successLatencies (rows : List ResultRow) : List ℚ :=
  rows.filterMap (fun r => if r.status == "Success" then some r.latency_s else none)

/-- Line 145: `tooks_ms = [r[4] for r in per_req_rows if r[6] == "Success" and
isinstance(r[4], (int, float))]`. -/
def successTooks (rows : List ResultRow) : List ℚ :=
  rows.filterMap (fun r => if r.status == "Success" then r.took_ms else none)

/-- Lines 144-167 of `run_scenario`: counts, rps and the summary dictionary,
as a function of the collected `per_req_rows` and the elapsed wall time. -/
def summarize (name : String) (clients : ℕ) (elapsed : ℚ)
    (rows : List ResultRow) : ScenarioSummary :=
  let latencies := successLatencies rows
  let tooks_ms := successTooks rows
  let total_requests := rows.length
  let success := (rows.filter (fun r => r.status == "Success")).length
  let errors := total_requests - success
  let rps : ℚ := if 0 < elapsed then (total_requests : ℚ) / elapsed else 0
  { scen := name
    clients := clients
    duration_s := pyRound elapsed 3
    requests := total_requests
    success := success
    errors := errors
    rps := pyRound rps 2
    lat_avg_ms := if latencies ≠ [] then some (pyRound (mean latencies * 1000) 2) else none
    lat_p50_ms := if latencies ≠ [] then some (pyRound (percentileVal latencies 50 * 1000) 2) else none
    lat_p90_ms := if latencies ≠ [] then some (pyRound (percentileVal latencies 90 * 1000) 2) else none
    lat_p95_ms := if latencies ≠ [] then some (pyRound (percentileVal latencies 95 * 1000) 2) else none
    lat_p99_ms := if latencies ≠ [] then some (pyRound (percentileVal latencies 99 * 1000) 2) else none
    took_avg_ms := if tooks_ms ≠ [] then some (pyRound (mean tooks_ms) 2) else none
    took_p95_ms := if tooks_ms ≠ [] then some (pyRound (percentileVal tooks_ms 95) 2) else none }

/-- One line of the per-scenario CSV log: the header, or one data row
holding exactly the cells of one `ResultRow`. -/
inductive LogLine where
  | header (cols : List String)
  | record (r : ResultRow)
deriving DecidableEq

/-- Lines 138-141: the per-scenario log file content — `w.writerow(header)`
followed by `w.writerows(per_req_rows)`. -/
def perRequestLog (rows : List ResultRow) : List LogLine :=
  .header ["scenario", "query", "epoch", "latency_s", "took_ms", "total_hits", "status"]
    :: rows.map .record

/-- The content of one query-catalog JSON file, restricted to the fields
`load_query_files` inspects; payloads the code only passes through are kept
opaque as strings. -/
structure QueryDoc where
  query : Option String := none
  aggs : Option String := none
  size : Option ℤ := none
  sort : Option String := none
  source : Option String := none
  fromOffset : Option ℤ := none
  track_total_hits : Option Bool := none
deriving DecidableEq

/-- The keyword arguments `load_query_files` assembles for `es.search`. -/
structure SearchKwargs where
  query : Option String
  aggs : Option String
  size : Option ℤ
  sort : Option String
  source : Option String
  from_ : Option ℤ
  track_total_hits : Bool
deriving DecidableEq

/-- The kw dictionary built for one file (lines 47-60): each field is
copied when present, and `track_total_hits` defaults to `True`. -/
def buildKwargs (q : QueryDoc) : SearchKwargs :=
  { query := q.query, aggs := q.aggs, size := q.size, sort := q.sort,
    source := q.source, from_ := q.fromOffset,
    track_total_hits := q.track_total_hits.getD true }

/-- Function `load_query_files` (lines 40-62): the catalog directory's `*.json` files
(as name-content pairs), sorted by file name, each mapped to its
`(name, kwargs)` pair. -/
def load_query_files (files : List (String × QueryDoc)) :
    List (String × SearchKwargs) :=
  (files.insertionSort (fun a b => a.1 ≤ b.1)).map (fun nq => (nq.1, buildKwargs nq.2))

/-- One sweep point of the `SCENARIOS` table (lines 23-34). -/
structure ScenarioSpec where
  name : String
  clients : ℕ
deriving DecidableEq

/-- The scenario sweep table `SCENARIOS` (lines 23-34). -/
def SCENARIOS : List ScenarioSpec :=
  [⟨"C01__clients_1", 1⟩, ⟨"C02__clients_2", 2⟩, ⟨"C03__clients_4", 4⟩,
   ⟨"C04__clients_6", 6⟩, ⟨"C05__clients_8", 8⟩, ⟨"C06__clients_10", 10⟩,
   ⟨"C07__clients_12", 12⟩, ⟨"C08__clients_16", 16⟩, ⟨"C09__clients_20", 20⟩,
   ⟨"C10__clients_24", 24⟩]

/-- Function `main` (lines 171-190) up to its per-scenario loop.  `qdirExists` is
`qdir.exists()`, `files` the directory's JSON files, and `runScenario` the
scenario execution (abstract here: its internals are irrelevant to the
configuration checks).  `.error` is the raised `SystemExit`; both checks
happen before any scenario is started, so under either fatal configuration
failure `runScenario` is never applied and no summaries are produced. -/
def mainRun (qdirExists : Bool) (qdirPath : String)
    (files : List (String × QueryDoc))
    (runScenario : ScenarioSpec → List (String × SearchKwargs) → ScenarioSummary) :
    Except String (List ScenarioSummary) :=
  if !qdirExists then .error ("Query directory not found: " ++ qdirPath)
  else
    let queries := load_query_files files
    if queries = [] then .error "No queries found."
    else .ok (SCENARIOS.map (fun sc => runScenario sc queries))

end LoadScenarios

theorem ceil_as_floor (a : ℚ) : ⌈a⌉ = -⌊-a⌋ := by
  rw [Int.floor_neg, neg_neg]

namespace LoadScenarios

theorem pyIndex_ok (s : List ℚ) (i : ℤ) (h0 : 0 ≤ i) (h1 : i < (s.length : ℤ)) :
    pyIndex s i = .ok (s.getD i.toNat 0) := by
  have hneg : ¬ i < 0 := by omega
  unfold pyIndex
  simp only [hneg, if_false]
  rw [if_pos ⟨h0, h1⟩]

theorem percentileRank_nonneg (n : ℕ) (p : ℚ) (hn : 1 ≤ n) (hp : 0 ≤ p) :
    0 ≤ percentileRank n p := by
  unfold percentileRank
  have h1 : (1 : ℚ) ≤ (n : ℚ) := by exact_mod_cast hn
  have h2 : (0 : ℚ) ≤ (n : ℚ) - 1 := by linarith
  exact mul_nonneg h2 (by positivity)

theorem percentileRank_le (n : ℕ) (p : ℚ) (hn : 1 ≤ n) (hp0 : 0 ≤ p) (hp1 : p ≤ 100) :
    percentileRank n p ≤ (n : ℚ) - 1 := by
  unfold percentileRank
  have h1 : (1 : ℚ) ≤ (n : ℚ) := by exact_mod_cast hn
  calc ((n : ℚ) - 1) * (p / 100) ≤ ((n : ℚ) - 1) * 1 := by
        apply mul_le_mul_of_nonneg_left (by linarith) (by linarith)
    _ = (n : ℚ) - 1 := mul_one _

theorem floor_rank_nonneg (n : ℕ) (p : ℚ) (hn : 1 ≤ n) (hp : 0 ≤ p) :
    0 ≤ ⌊percentileRank n p⌋ :=
  Int.le_floor.mpr (by exact_mod_cast percentileRank_nonneg n p hn hp)

theorem ceil_rank_le (n : ℕ) (p : ℚ) (hn : 1 ≤ n) (hp0 : 0 ≤ p) (hp1 : p ≤ 100) :
    ⌈percentileRank n p⌉ ≤ (n : ℤ) - 1 := by
  apply Int.ceil_le.mpr
  push_cast
  exact percentileRank_le n p hn hp0 hp1

theorem percentile_eq_spec (values : List ℚ) (p : ℚ) (hp0 : 0 ≤ p) (hp1 : p ≤ 100) :
    percentile values p = .ok (percentileSpec values p) := by
  by_cases he : values = []
  · subst he; rfl
  · have hn : 1 ≤ values.length := List.length_pos.mpr he
    have hlen : (values.insertionSort (· ≤ ·)).length = values.length :=
      List.length_insertionSort _ _
    simp only [percentile, percentileSpec, he, if_false]
    set s := values.insertionSort (· ≤ ·) with hs
    set k := percentileRank s.length p with hk
    have hns : 1 ≤ s.length := by omega
    have hf0 : 0 ≤ ⌊k⌋ := floor_rank_nonneg s.length p hns hp0
    have hc1 : ⌈k⌉ ≤ (s.length : ℤ) - 1 := ceil_rank_le s.length p hns hp0 hp1
    have hk0 : 0 ≤ k := percentileRank_nonneg s.length p hns hp0
    have hfc : ⌊k⌋ ≤ ⌈k⌉ := Int.floor_le_ceil k
    have hfl : ⌊k⌋ < (s.length : ℤ) := by omega
    have hcl : ⌈k⌉ < (s.length : ℤ) := by omega
    by_cases h : (⌊k⌋ : ℤ) = ⌈k⌉
    · rw [if_pos h, if_pos h]
      have hik : pyInt k = ⌊k⌋ := by unfold pyInt; rw [if_pos hk0]
      rw [hik, pyIndex_ok s ⌊k⌋ hf0 hfl]
      rfl
    · rw [if_neg h, if_neg h]
      rw [pyIndex_ok s ⌊k⌋ hf0 hfl, pyIndex_ok s ⌈k⌉ (le_trans hf0 hfc) hcl]
      rfl

theorem percentileSpec_zero (values : List ℚ) (he : values ≠ []) :
    percentileSpec values 0 = some ((values.insertionSort (· ≤ ·)).getD 0 0) := by
  have hk : percentileRank (values.insertionSort (· ≤ ·)).length 0 = 0 := by
    unfold percentileRank; ring
  simp only [percentileSpec, he, if_false, hk]
  norm_num

theorem percentileSpec_hundred (values : List ℚ) (he : values ≠ []) :
    percentileSpec values 100 =
      some ((values.insertionSort (· ≤ ·)).getD (values.length - 1) 0) := by
  have hn : 1 ≤ values.length := List.length_pos.mpr he
  have hlen : (values.insertionSort (· ≤ ·)).length = values.length :=
    List.length_insertionSort _ _
  have hk : percentileRank (values.insertionSort (· ≤ ·)).length 100 =
      ((values.length - 1 : ℕ) : ℚ) := by
    unfold percentileRank
    rw [hlen, Nat.cast_sub hn]
    push_cast
    ring
  simp only [percentileSpec, he, if_false, hk, Int.floor_natCast, Int.ceil_natCast,
    if_pos rfl, Int.toNat_natCast]
  simp

theorem min?_eq_head_sorted (values : List ℚ) (he : values ≠ []) :
    values.min? = some ((values.insertionSort (· ≤ ·)).getD 0 0) := by
  have hperm : List.Perm (values.insertionSort (· ≤ ·)) values := List.perm_insertionSort _ _
  have hsort : (values.insertionSort (· ≤ ·)).Sorted (· ≤ ·) :=
    List.sorted_insertionSort _ _
  cases hs : values.insertionSort (· ≤ ·) with
  | nil =>
      exact absurd (List.length_eq_zero.mp (by rw [← List.length_insertionSort (· ≤ ·) values, hs]; rfl)) he
  | cons a t =>
      rw [hs] at hperm hsort
      haveI : Std.Antisymm ((· : ℚ) ≤ ·) := ⟨fun h h2 => le_antisymm h h2⟩
      rw [List.getD_cons_zero]
      rw [List.min?_eq_some_iff (fun a => le_refl a) (fun a b => min_choice a b)
        (fun a b c => le_min_iff)]
      refine ⟨hperm.subset (List.mem_cons_self a t), ?_⟩
      intro b hb
      rcases List.mem_cons.mp (hperm.symm.subset hb) with h | h
      · exact le_of_eq h.symm
      · exact List.rel_of_sorted_cons hsort b h

theorem max?_eq_last_sorted (values : List ℚ) (he : values ≠ []) :
    values.max? = some ((values.insertionSort (· ≤ ·)).getD (values.length - 1) 0) := by
  have hn : 1 ≤ values.length := List.length_pos.mpr he
  have hlen : (values.insertionSort (· ≤ ·)).length = values.length :=
    List.length_insertionSort _ _
  have hperm : List.Perm (values.insertionSort (· ≤ ·)) values := List.perm_insertionSort _ _
  have hsort : (values.insertionSort (· ≤ ·)).Sorted (· ≤ ·) :=
    List.sorted_insertionSort _ _
  have hidx : values.length - 1 < (values.insertionSort (· ≤ ·)).length := by omega
  rw [List.getD_eq_getElem _ _ hidx]
  haveI : Std.Antisymm ((· : ℚ) ≤ ·) := ⟨fun h h2 => le_antisymm h h2⟩
  rw [List.max?_eq_some_iff (fun a => le_refl a) (fun a b => max_choice a b)
    (fun a b c => max_le_iff)]
  constructor
  · exact hperm.subset (List.getElem_mem hidx)
  · intro b hb
    obtain ⟨i, hi, rfl⟩ := List.mem_iff_getElem.mp (hperm.symm.subset hb)
    have : i ≤ values.length - 1 := by omega
    exact hsort.rel_get_of_le (a := ⟨i, hi⟩) (b := ⟨values.length - 1, hidx⟩) this

/-- C2: the call `percentile(samples, 0)` is the minimum and `percentile(samples, 100)`
the maximum of any non-empty sample list, and `percentile([], p)` is the
"no data" sentinel (`none`, Python `None`) for every p.  `List.min?`/`max?`
are `none` exactly on the empty list, so both halves are one equation. -/
theorem percentile_zero_is_min_hundred_is_max (values : List ℚ) (p : ℚ) :
    percentile values 0 = .ok values.min? ∧
    percentile values 100 = .ok values.max? ∧
    percentile [] p = .ok none := by
  refine ⟨?_, ?_, rfl⟩
  · by_cases he : values = []
    · subst he; rfl
    · rw [percentile_eq_spec values 0 (by norm_num) (by norm_num),
        percentileSpec_zero values he, min?_eq_head_sorted values he]
  · by_cases he : values = []
    · subst he; rfl
    · rw [percentile_eq_spec values 100 (by norm_num) (by norm_num),
        percentileSpec_hundred values he, max?_eq_last_sorted values he]

/-- C1: for a non-empty sample list and `p ∈ [0, 100]`, `percentile` returns
(without raising) exactly the specification's algorithm: sort ascending,
`k = (n-1)*p/100`, `f = ⌊k⌋`, `c = ⌈k⌉`, `sample[f]` if `f = c`, else
`sample[f] + (sample[c] - sample[f])*(k - f)` (`percentileSpec`); a
single-sample list yields that sample for ANY p; the empty list yields the
"no data" sentinel (`none`) for every p instead of raising. -/
theorem percentile_implements_spec_formula (values : List ℚ) (p : ℚ) :
    (0 ≤ p → p ≤ 100 → percentile values p = .ok (percentileSpec values p)) ∧
    (values.length = 1 → percentile values p = .ok (some (values.getD 0 0))) ∧
    (values = [] → percentile values p = .ok none) := by
  refine ⟨fun hp0 hp1 => percentile_eq_spec values p hp0 hp1, ?_, fun h => by subst h; rfl⟩
  intro h
  obtain ⟨a, rfl⟩ := List.length_eq_one.mp h
  norm_num [percentile, percentileRank, pyInt, pyIndex, List.insertionSort,
    List.orderedInsert, Except.map]

/-- Witness for C1 at `values = [1, 3]`, `p = 50`: both hypotheses hold and
the spec formula evaluates to the interpolated median 2. -/
theorem percentile_implements_spec_formula_witness :
    percentile [1, 3] 50 = .ok (percentileSpec [1, 3] 50) ∧
    percentileSpec [1, 3] 50 = some 2 :=
  ⟨(percentile_implements_spec_formula [1, 3] 50).1 (by norm_num) (by norm_num),
   by norm_num [percentileSpec, percentileRank, ceil_as_floor, List.insertionSort,
        List.orderedInsert] <;> simp⟩

/-- C10: for every non-empty sample list and `p ∈ [0, 100]` the indices
`f = ⌊k⌋`, `c = ⌈k⌉` computed by `percentile` satisfy
`0 ≤ f ≤ c ≤ n - 1`, so every list access is in bounds and the call returns
without an out-of-range indexing error; and for p outside `[0, 100]` with
two samples the guarantee indeed fails (`c > n - 1` at p = 150,
`f < 0` at p = -50). -/
theorem percentile_indices_in_bounds (values : List ℚ) (p : ℚ) :
    (values ≠ [] → 0 ≤ p → p ≤ 100 →
      0 ≤ ⌊percentileRank values.length p⌋ ∧
      ⌊percentileRank values.length p⌋ ≤ ⌈percentileRank values.length p⌉ ∧
      ⌈percentileRank values.length p⌉ ≤ (values.length : ℤ) - 1 ∧
      ∃ o, percentile values p = .ok o) ∧
    1 < ⌈percentileRank 2 150⌉ ∧ ⌊percentileRank 2 (-50)⌋ < 0 := by
  refine ⟨fun he hp0 hp1 => ?_, ?_, ?_⟩
  · have hn : 1 ≤ values.length := List.length_pos.mpr he
    exact ⟨floor_rank_nonneg _ p hn hp0, Int.floor_le_ceil _,
      ceil_rank_le _ p hn hp0 hp1,
      percentileSpec values p, percentile_eq_spec values p hp0 hp1⟩
  · rw [ceil_as_floor]; norm_num [percentileRank]
  · norm_num [percentileRank]

/-- Witness for C10 at `values = [1, 3]`, `p = 50`. -/
theorem percentile_indices_in_bounds_witness :
    0 ≤ ⌊percentileRank ([1, 3] : List ℚ).length 50⌋ ∧
    ⌊percentileRank ([1, 3] : List ℚ).length 50⌋ ≤ ⌈percentileRank ([1, 3] : List ℚ).length 50⌉ ∧
    ⌈percentileRank ([1, 3] : List ℚ).length 50⌉ ≤ (([1, 3] : List ℚ).length : ℤ) - 1 ∧
    ∃ o, percentile [1, 3] 50 = .ok o :=
  (percentile_indices_in_bounds [1, 3] 50).1 (by simp) (by norm_num) (by norm_num)

theorem percentileVal_eq (xs : List ℚ) (p : ℚ) (he : xs ≠ []) (hp0 : 0 ≤ p)
    (hp1 : p ≤ 100) : percentile xs p = .ok (some (percentileVal xs p)) := by
  have h := percentile_eq_spec xs p hp0 hp1
  have hv : ∃ v, percentileSpec xs p = some v := by
    simp only [percentileSpec, he, if_false]
    split
    · exact ⟨_, rfl⟩
    · exact ⟨_, rfl⟩
  obtain ⟨v, hv⟩ := hv
  simp [percentileVal, h, hv]

theorem filterMap_filter_eq {α β : Type} (P : α → Bool) (g : α → Option β)
    (h : ∀ r, P r = false → g r = none) :
    ∀ l : List α, (l.filter P).filterMap g = l.filterMap g := by
  intro l
  induction l with
  | nil => rfl
  | cons a t ih =>
    cases hp : P a with
    | true => simp [List.filter_cons, hp, List.filterMap_cons, ih]
    | false => simp [List.filter_cons, hp, List.filterMap_cons, h a hp, ih]

/-- C4: in every scenario summary, `errors = requests - success` exactly, and
the subtraction is exact because `success` never exceeds `requests`. -/
theorem summary_errors_eq_requests_sub_success (name : String) (clients : ℕ)
    (elapsed : ℚ) (rows : List ResultRow) :
    (summarize name clients elapsed rows).errors =
      (summarize name clients elapsed rows).requests -
        (summarize name clients elapsed rows).success ∧
    (summarize name clients elapsed rows).success ≤
      (summarize name clients elapsed rows).requests := by
  refine ⟨rfl, ?_⟩
  simp only [summarize]
  exact List.length_filter_le _ _

/-- C7: the per-scenario log is the header row followed by exactly one
`record` line per collected `ResultRow`, in order, so the number of persisted
data rows equals `summary.requests` with nothing lost or duplicated. -/
theorem per_request_log_one_row_per_record (name : String) (clients : ℕ)
    (elapsed : ℚ) (rows : List ResultRow) :
    perRequestLog rows =
      LogLine.header ["scenario", "query", "epoch", "latency_s", "took_ms",
        "total_hits", "status"] :: rows.map LogLine.record ∧
    (rows.map LogLine.record).length = (summarize name clients elapsed rows).requests := by
  exact ⟨rfl, by simp [summarize]⟩

theorem successLatencies_cons_of_failure (rows : List ResultRow) (r : ResultRow)
    (h : r.status ≠ "Success") :
    successLatencies (r :: rows) = successLatencies rows := by
  simp [successLatencies, List.filterMap_cons, h]

theorem successTooks_cons_of_failure (rows : List ResultRow) (r : ResultRow)
    (h : r.status ≠ "Success") :
    successTooks (r :: rows) = successTooks rows := by
  simp [successTooks, List.filterMap_cons, h]

/-- C5: the latency statistics (average and p50/p90/p95/p99) and the
server-reported-time statistics of a summary are computed only from rows with
status `"Success"`: prepending any row with a different status leaves all
seven statistic fields unchanged, while `requests` and `errors` grow by one,
`success` is unchanged, and the failed row still counts in the RPS numerator. -/
theorem summary_stats_from_success_only (name : String) (clients : ℕ)
    (elapsed : ℚ) (rows : List ResultRow) (r : ResultRow)
    (h : r.status ≠ "Success") :
    ((summarize name clients elapsed (r :: rows)).lat_avg_ms =
        (summarize name clients elapsed rows).lat_avg_ms ∧
      (summarize name clients elapsed (r :: rows)).lat_p50_ms =
        (summarize name clients elapsed rows).lat_p50_ms ∧
      (summarize name clients elapsed (r :: rows)).lat_p90_ms =
        (summarize name clients elapsed rows).lat_p90_ms ∧
      (summarize name clients elapsed (r :: rows)).lat_p95_ms =
        (summarize name clients elapsed rows).lat_p95_ms ∧
      (summarize name clients elapsed (r :: rows)).lat_p99_ms =
        (summarize name clients elapsed rows).lat_p99_ms ∧
      (summarize name clients elapsed (r :: rows)).took_avg_ms =
        (summarize name clients elapsed rows).took_avg_ms ∧
      (summarize name clients elapsed (r :: rows)).took_p95_ms =
        (summarize name clients elapsed rows).took_p95_ms) ∧
    (summarize name clients elapsed (r :: rows)).requests =
      (summarize name clients elapsed rows).requests + 1 ∧
    (summarize name clients elapsed (r :: rows)).success =
      (summarize name clients elapsed rows).success ∧
    (summarize name clients elapsed (r :: rows)).errors =
      (summarize name clients elapsed rows).errors + 1 ∧
    (0 < elapsed → (summarize name clients elapsed (r :: rows)).rps =
      pyRound (((rows.length : ℚ) + 1) / elapsed) 2) := by
  have hb : (r.status == "Success") = false := beq_eq_false_iff_ne.mpr h
  have hlat := successLatencies_cons_of_failure rows r h
  have htook := successTooks_cons_of_failure rows r h
  have hsuc : ((r :: rows).filter (fun x => x.status == "Success")).length =
      (rows.filter (fun x => x.status == "Success")).length := by
    simp [List.filter_cons, hb]
  have hle : (rows.filter (fun x => x.status == "Success")).length ≤ rows.length :=
    List.length_filter_le _ _
  refine ⟨⟨?_, ?_, ?_, ?_, ?_, ?_, ?_⟩, ?_, ?_, ?_, ?_⟩ <;>
    simp only [summarize, hlat, htook, hsuc, List.length_cons]
  · omega
  · intro h0
    rw [if_pos h0]
    push_cast
    ring_nf

/-- Witness for C5: one failed row prepended to one successful row; the
median-latency field is untouched, `requests` grows from 1 to 2. -/
theorem summary_stats_from_success_only_witness :
    (summarize "s" 1 2
        ({ scen := "s", query := "q", epoch := 0, latency_s := 3, took_ms := none,
           total_hits := none, status := "ConnectionError: boom" } ::
         [{ scen := "s", query := "q", epoch := 0, latency_s := 1, took_ms := some 5,
            total_hits := some 7, status := "Success" }])).lat_p50_ms =
      (summarize "s" 1 2
        [{ scen := "s", query := "q", epoch := 0, latency_s := 1, took_ms := some 5,
           total_hits := some 7, status := "Success" }]).lat_p50_ms ∧
    (summarize "s" 1 2
        ({ scen := "s", query := "q", epoch := 0, latency_s := 3, took_ms := none,
           total_hits := none, status := "ConnectionError: boom" } ::
         [{ scen := "s", query := "q", epoch := 0, latency_s := 1, took_ms := some 5,
            total_hits := some 7, status := "Success" }])).requests =
      (summarize "s" 1 2
        [{ scen := "s", query := "q", epoch := 0, latency_s := 1, took_ms := some 5,
           total_hits := some 7, status := "Success" }]).requests + 1 :=
  ⟨(summary_stats_from_success_only "s" 1 2 _ _ (by simp)).1.2.1,
   (summary_stats_from_success_only "s" 1 2 _ _ (by simp)).2.1⟩

/-- C8: when no collected row has status `"Success"` every statistic field of
the summary is the explicit empty value (`none`, written as the empty cell),
not zero, while `requests`, `success = 0`, `errors = requests` and the RPS
are still produced. -/
theorem summary_empty_stats_when_no_success (name : String) (clients : ℕ)
    (elapsed : ℚ) (rows : List ResultRow) (h : ∀ r ∈ rows, r.status ≠ "Success") :
    (summarize name clients elapsed rows).lat_avg_ms = none ∧
    (summarize name clients elapsed rows).lat_p50_ms = none ∧
    (summarize name clients elapsed rows).lat_p90_ms = none ∧
    (summarize name clients elapsed rows).lat_p95_ms = none ∧
    (summarize name clients elapsed rows).lat_p99_ms = none ∧
    (summarize name clients elapsed rows).took_avg_ms = none ∧
    (summarize name clients elapsed rows).took_p95_ms = none ∧
    (summarize name clients elapsed rows).requests = rows.length ∧
    (summarize name clients elapsed rows).success = 0 ∧
    (summarize name clients elapsed rows).errors = rows.length ∧
    (summarize name clients elapsed rows).rps =
      pyRound (if 0 < elapsed then (rows.length : ℚ) / elapsed else 0) 2 := by
  have hb : ∀ r ∈ rows, (r.status == "Success") = false :=
    fun r hr => beq_eq_false_iff_ne.mpr (h r hr)
  have hlat : successLatencies rows = [] := by
    simp only [successLatencies, List.filterMap_eq_nil_iff]
    intro r hr
    simp [hb r hr]
  have htook : successTooks rows = [] := by
    simp only [successTooks, List.filterMap_eq_nil_iff]
    intro r hr
    simp [hb r hr]
  have hsuc : (rows.filter (fun x => x.status == "Success")).length = 0 := by
    simp only [List.length_eq_zero, List.filter_eq_nil_iff]
    intro r hr
    simp [hb r hr]
  refine ⟨?_, ?_, ?_, ?_, ?_, ?_, ?_, ?_, ?_, ?_, ?_⟩ <;>
    simp [summarize, hlat, htook, hsuc]

/-- Witness for C8: a single failed row; all statistics empty, counts kept. -/
theorem summary_empty_stats_when_no_success_witness :
    (summarize "s" 1 2
        [{ scen := "s", query := "q", epoch := 0, latency_s := 3, took_ms := none,
           total_hits := none, status := "Timeout: t" }]).lat_avg_ms = none ∧
    (summarize "s" 1 2
        [{ scen := "s", query := "q", epoch := 0, latency_s := 3, took_ms := none,
           total_hits := none, status := "Timeout: t" }]).requests = 1 :=
  ⟨(summary_empty_stats_when_no_success "s" 1 2 _ (by simp)).1,
   (summary_empty_stats_when_no_success "s" 1 2 _ (by simp)).2.2.2.2.2.2.2.1⟩

/-- C6: a failed request attempt is captured entirely in its own
`ResultRecord`: when the deadline check passes, the worker appends exactly
one row for the failed attempt — status the error-kind-plus-message string,
latency still measured from just before the request to the failure point,
the `took`/`total_hits` cells left empty — and then continues with its next
attempt; the failure never terminates the worker's loop. -/
theorem request_failure_is_localized (scen : String) (st dur now dt : ℚ)
    (q en em : String) (rest : List Attempt) (h : now - st < dur) :
    run_client scen st dur now (⟨q, .failure en em, dt⟩ :: rest) =
      { scen := scen, query := q, epoch := now + dt, latency_s := dt,
        took_ms := none, total_hits := none, status := en ++ ": " ++ em } ::
      run_client scen st dur (now + dt) rest := by
  simp only [run_client, if_pos h]
  rfl

/-- Witness for C6: a worker at instant 0 with a 10-second budget records a
1-second connection failure as one row and carries on (here: no further
attempts pending). -/
theorem request_failure_is_localized_witness :
    run_client "s" 0 10 0 [⟨"q", .failure "ConnectionError" "boom", 1⟩] =
      [{ scen := "s", query := "q", epoch := 0 + 1, latency_s := 1,
         took_ms := none, total_hits := none,
         status := "ConnectionError" ++ ": " ++ "boom" }] :=
  (request_failure_is_localized "s" 0 10 0 1 "q" "ConnectionError" "boom" []
    (by norm_num)).trans (by simp only [run_client])

/-- Counterexample to C3 as stated: the source gives every worker its own
`start_time = perf_counter()` read inside `run_client`, not one shared
deadline.  A worker whose loop begins at instant 5 in a scenario launched at
instant 0 with a 10-second duration still issues a request at instant 11
(since 11 - 5 < 10), while under the spec's shared deadline 0 + 10 it would
already have stopped. -/
theorem shared_deadline_counterexample :
    run_client "s" 5 10 11 [⟨"q", .success none none, 1⟩] ≠
      runClientSharedDeadline "s" (0 + 10) 11 [⟨"q", .success none none, 1⟩] := by
  have h1 : run_client "s" 5 10 11 [⟨"q", .success none none, 1⟩] =
      attemptRow "s" 11 ⟨"q", .success none none, 1⟩ ::
        run_client "s" 5 10 (11 + 1) [] := by
    simp only [run_client, if_pos (by norm_num : (11 : ℚ) - 5 < 10)]
  have h2 : runClientSharedDeadline "s" (0 + 10) 11 [⟨"q", .success none none, 1⟩] = [] := by
    simp only [runClientSharedDeadline, if_neg (by norm_num : ¬ (11 : ℚ) < 0 + 10)]
  rw [h1, h2]
  simp [run_client]

/-- C3 as amended: all workers of a scenario run with the same fixed
duration, but each measures it from its own `start_time` read when the worker
begins: a worker keeps issuing requests exactly while
`now - start_time < duration_s`, i.e. its personal deadline is
`start_time + duration_s`, not a scenario-wide launch instant plus the
duration. -/
theorem run_client_per_worker_deadline (scen : String) (st dur now : ℚ)
    (a : Attempt) (rest : List Attempt) :
    ((now - st < dur) ↔ now < st + dur) ∧
    (now < st + dur → run_client scen st dur now (a :: rest) =
        attemptRow scen now a :: run_client scen st dur (now + a.dt) rest) ∧
    (st + dur ≤ now → run_client scen st dur now (a :: rest) = []) := by
  refine ⟨by constructor <;> (intro h; linarith), fun h => ?_, fun h => ?_⟩
  · simp only [run_client, if_pos (show now - st < dur by linarith)]
  · simp only [run_client, if_neg (show ¬ now - st < dur by linarith)]

/-- Witness for C3's amended statement: the worker that started at 5 is
still inside its personal window at instant 11. -/
theorem run_client_per_worker_deadline_witness :
    run_client "s" 5 10 11 [⟨"q", .success none none, 1⟩] =
      attemptRow "s" 11 ⟨"q", .success none none, 1⟩ ::
        run_client "s" 5 10 (11 + 1) [] :=
  (run_client_per_worker_deadline "s" 5 10 11 ⟨"q", .success none none, 1⟩ []).2.1
    (by norm_num)

theorem load_query_files_nil : load_query_files [] = [] := rfl

/-- C9: under either fatal configuration failure — catalog directory missing,
or an empty catalog — `main` raises `SystemExit` with its diagnostic before
any scenario starts: the result is the `.error` carrying the message, no
summary list is produced, and the outcome does not depend on the scenario
runner at all (it is never invoked). -/
theorem main_aborts_on_fatal_config (qdirPath : String)
    (files : List (String × QueryDoc))
    (f g : ScenarioSpec → List (String × SearchKwargs) → ScenarioSummary) :
    (mainRun false qdirPath files f =
      .error ("Query directory not found: " ++ qdirPath)) ∧
    (files = [] → mainRun true qdirPath files f = .error "No queries found.") ∧
    (∀ ex : Bool, ex = false ∨ files = [] →
      mainRun ex qdirPath files f = mainRun ex qdirPath files g) := by
  refine ⟨rfl, fun h => by subst h; rfl, fun ex hx => ?_⟩
  rcases hx with rfl | rfl
  · rfl
  · cases ex
    · rfl
    · rfl

/-- Witness for C9: an existing directory with an empty catalog aborts with
"No queries found."; a missing directory aborts with its own diagnostic. -/
theorem main_aborts_on_fatal_config_witness :
    mainRun true "queries" []
        (fun _ _ => ⟨"", 0, 0, 0, 0, 0, 0, none, none, none, none, none, none, none⟩) =
      .error "No queries found." ∧
    mainRun false "queries" []
        (fun _ _ => ⟨"", 0, 0, 0, 0, 0, 0, none, none, none, none, none, none, none⟩) =
      .error ("Query directory not found: " ++ "queries") :=
  ⟨(main_aborts_on_fatal_config "queries" []
      (fun _ _ => ⟨"", 0, 0, 0, 0, 0, 0, none, none, none, none, none, none, none⟩)
      (fun _ _ => ⟨"", 0, 0, 0, 0, 0, 0, none, none, none, none, none, none, none⟩)).2.1 rfl,
   (main_aborts_on_fatal_config "queries" []
      (fun _ _ => ⟨"", 0, 0, 0, 0, 0, 0, none, none, none, none, none, none, none⟩)
      (fun _ _ => ⟨"", 0, 0, 0, 0, 0, 0, none, none, none, none, none, none, none⟩)).1⟩

end LoadScenarios
